import Mathlib

/-!
Verification of the Drone power-line inspection pipeline (FINALS/ sources).

Shallow embedding of the detection pipeline:
* `config.py`    → the `Config` namespace and `validate_settings`;
* `detector.py`  → `DetectionInfo`, `simulate_temperature`,
  `extract_yolo_detections`, `process_frame`, `set_processing_enabled`;
* `camera.py`    → the bounded frame queue (`tryPush`/`tryPop`) and one
  iteration of `_capture_loop` (`capture_iteration`).

Python floats are modelled as rationals; `datetime.now()` and the global
`random` module state are threaded explicitly (`now : String`, `Rng`), so
that every function is pure and executable.  A `process_frame` call that
would raise `NameError` in Python is modelled by returning `none`.
-/

namespace Drone

/-- Stream of unit-interval draws standing for the state of Python's
`random` generator: a fixed seed determines the whole stream. -/
abbrev Rng : Type := List ℚ

/-- One draw of `random.random()`: consume the head of the stream
(an exhausted stream yields 0 and stays empty). -/
def nextUnit : Rng → ℚ × Rng
  | [] => (0, [])
  | u :: us => (u, us)

/-- `random.uniform(a, b) = a + (b - a) * random.random()`. -/
def pyUniform (a b : ℚ) (rng : Rng) : ℚ × Rng :=
  let p := nextUnit rng
  (a + (b - a) * p.1, p.2)

/-- Round half to even, as Python's `round` does. -/
def roundHalfEven (q : ℚ) : ℤ :=
  let f := ⌊q⌋
  let r := q - (f : ℚ)
  if r < 1/2 then f
  else if 1/2 < r then f + 1
  else if f % 2 = 0 then f else f + 1

/-- `round(x, 1)`: round to one decimal place. -/
def pyRound1 (q : ℚ) : ℚ := (roundHalfEven (10 * q) : ℚ) / 10

/-- `int(x)` on a float: truncation toward zero. -/
def pyInt (q : ℚ) : ℤ := if 0 ≤ q then ⌊q⌋ else ⌈q⌉

/-- Render a rational with exactly one decimal digit, as `f"{x:.1f}"`. -/
def fmtFixed1 (q : ℚ) : String :=
  let n := roundHalfEven (10 * q)
  let sign := if n < 0 then "-" else ""
  let m := n.natAbs
  sign ++ toString (m / 10) ++ "." ++ toString (m % 10)

/-- Render a rational as a percentage with one decimal, as `f"{x:.1%}"`. -/
def fmtPercent1 (q : ℚ) : String := fmtFixed1 (100 * q) ++ "%"

/-- Python's `max` over a nonempty list (`[]` defaults to 0, never used). -/
def pymax : List ℚ → ℚ
  | [] => 0
  | x :: xs => xs.foldl max x

/-- `enumerate(it, start)`. -/
def pyEnumerate {α : Type} : ℕ → List α → List (ℕ × α)
  | _, [] => []
  | i, a :: as => (i, a) :: pyEnumerate (i + 1) as

namespace Config

/-- `Config.MODEL_PATH`. -/
def MODEL_PATH : String := "finalsirbagsic.pt"

/-- `Config.CONFIDENCE_THRESHOLD`. -/
def CONFIDENCE_THRESHOLD : ℚ := 1/10

/-- `Config.TARGET_FPS`. -/
def TARGET_FPS : ℤ := 30

/-- `Config.FRAME_QUEUE_SIZE`. -/
def FRAME_QUEUE_SIZE : ℕ := 2

/-- `Config.DETECTION_INTERVAL`. -/
def DETECTION_INTERVAL : ℕ := 3

/-- `Config.ENABLE_TEMPERATURE_SIMULATION`. -/
def ENABLE_TEMPERATURE_SIMULATION : Bool := true

/-- `Config.CLASS_NAMES.get(class_id, f"Class_{class_id}")`. -/
def className (class_id : ℤ) : String :=
  if class_id = 0 then "1-1A-Fired Wedge Joint-BARE"
  else if class_id = 1 then "1-1B-Fired Wedge Joint-COVERED"
  else if class_id = 2 then "2-2A-Hummer Driven Wedge Joint-BARE"
  else if class_id = 3 then "2-2B-Hummer Driven Wedge Joint-COVERED"
  else "Class_" ++ toString class_id

/-- `Config.TEMPERATURE_RANGES.get(class_id, (30.0, 60.0))`. -/
def temperatureRange (class_id : ℤ) : ℚ × ℚ :=
  if class_id = 0 then (35, 65)
  else if class_id = 1 then (30, 55)
  else if class_id = 2 then (32, 60)
  else if class_id = 3 then (28, 50)
  else (30, 60)

end Config

/-- The `current_detection` dictionary of `PowerLineDetector`:
`all_detections` entries are `(label, confidence, class_id, temperature)`,
`boxes_xyxy` entries are `(x1, y1, x2, y2)`. -/
structure DetectionInfo where
  label : String
  confidence : String
  temperature : String
  timestamp : String
  multiple_info : String
  all_detections : List (String × ℚ × ℤ × ℚ)
  boxes_xyxy : List (ℤ × ℤ × ℤ × ℤ)
deriving DecidableEq, Repr

/-- `PowerLineDetector.get_no_detection_info` (the "No Detection" sentinel);
`now` stands for `datetime.now().strftime(...)`. -/
def get_no_detection_info (now : String) : DetectionInfo :=
  { label := "No Detection"
    confidence := "0%"
    temperature := "0.0 °C"
    timestamp := now
    multiple_info := ""
    all_detections := []
    boxes_xyxy := [] }

/-- `PowerLineDetector.simulate_temperature`: biased uniform draw from the
per-class range plus jitter, rounded to one decimal. -/
def simulate_temperature (class_id : ℤ) (confidence : ℚ) (rng : Rng) : ℚ × Rng :=
  if Config.ENABLE_TEMPERATURE_SIMULATION = false then (0, rng)
  else
    let range := Config.temperatureRange class_id
    let low := range.1
    let high := range.2
    let bias := confidence
    let d1 := pyUniform (low + (high - low) * bias * (1/10))
                        (high - (high - low) * (1 - bias) * (1/20)) rng
    let d2 := pyUniform (-(1/2)) (1/2) d1.2
    (pyRound1 (d1.1 + d2.1), d2.2)

/-- One detection of `result.boxes`: confidence (`boxes.conf[i]`),
class id (`boxes.cls[i]`) and `boxes.xyxy[i]` as rationals. -/
structure YoloBox where
  conf : ℚ
  cls : ℤ
  xyxy : ℚ × ℚ × ℚ × ℚ
deriving DecidableEq, Repr

/-- The `.boxes` field of one YOLO result: `None` or a list of boxes. -/
abbrev YoloResult : Type := Option (List YoloBox)

/-- One iteration of the extraction loop body in `extract_yolo_detections`:
class name, temperature draw (consuming the generator) and integer box. -/
structure BoxInfo where
  label : String
  conf : ℚ
  cls : ℤ
  temp : ℚ
  coords : ℤ × ℤ × ℤ × ℤ
deriving DecidableEq, Repr

/-- The `for i in range(len(boxes))` loop of `extract_yolo_detections`,
building the parallel `labels/confidences/class_ids/temperatures/boxes_xyxy`
lists (kept here as one list of records, in the same order). -/
def processBoxes : List YoloBox → Rng → List BoxInfo × Rng
  | [], rng => ([], rng)
  | b :: bs, rng =>
    let class_name := Config.className b.cls
    let t := simulate_temperature b.cls b.conf rng
    let coords := (pyInt b.xyxy.1, pyInt b.xyxy.2.1, pyInt b.xyxy.2.2.1, pyInt b.xyxy.2.2.2)
    let rest := processBoxes bs t.2
    (⟨class_name, b.conf, b.cls, t.1, coords⟩ :: rest.1, rest.2)

/-- The `multiple_lines` list: `f"{i}. {label}: {conf:.1%} - {temp:.1f}°C"`
for each `(label, conf, temp)`, enumerated from 1. -/
def multipleLines (triples : List (String × ℚ × ℚ)) : List String :=
  (pyEnumerate 1 triples).map fun p =>
    toString p.1 ++ ". " ++ p.2.1 ++ ": " ++ fmtPercent1 p.2.2.1 ++ " - " ++
      fmtFixed1 p.2.2.2 ++ "°C"

/-- `PowerLineDetector.extract_yolo_detections` on one YOLO result
(its `.boxes` field), with the timestamp and random state explicit. -/
def extract_yolo_detections (result : YoloResult) (now : String) (rng : Rng) :
    DetectionInfo × Rng :=
  match result with
  | none => (get_no_detection_info now, rng)
  | some [] => (get_no_detection_info now, rng)
  | some (b :: bs) =>
    let p := processBoxes (b :: bs) rng
    let infos := p.1
    let confidences := infos.map fun i => i.conf
    let temperatures := infos.map fun i => i.temp
    let main :=
      if infos.length = 1 then
        ((infos.headD ⟨"", 0, 0, 0, (0, 0, 0, 0)⟩).label,
         confidences.headD 0, temperatures.headD 0, "")
      else
        ("Multiple Detections (" ++ toString infos.length ++ ")",
         pymax confidences, pymax temperatures,
         String.intercalate "\n"
           (multipleLines (infos.map fun i => (i.label, i.conf, i.temp))))
    ({ label := main.1
       confidence := fmtPercent1 main.2.1
       temperature := fmtFixed1 main.2.2.1 ++ " °C"
       timestamp := now
       multiple_info := main.2.2.2
       all_detections := infos.map fun i => (i.label, i.conf, i.cls, i.temp)
       boxes_xyxy := infos.map fun i => i.coords }, p.2)

/-- The mutable fields of `PowerLineDetector` that the processing logic
touches (timing/FPS bookkeeping carries no detection content and is
omitted); `rng` is the state of the global `random` generator. -/
structure DetectorState where
  processing_enabled : Bool
  skip_factor : ℕ
  frame_counter : ℕ
  current_detection : DetectionInfo
  rng : Rng
deriving DecidableEq

/-- `PowerLineDetector.__init__`: processing enabled, skip factor from
`Config.DETECTION_INTERVAL`, counter 0, sentinel detection state. -/
def init_detector (now : String) (rng : Rng) : DetectorState :=
  { processing_enabled := true
    skip_factor := Config.DETECTION_INTERVAL
    frame_counter := 0
    current_detection := get_no_detection_info now
    rng := rng }

/-- Outcome of the `self.model(frame, ...)` call: either it raises
(`.error`) or returns a list of results, each carrying a `.boxes` field. -/
abbrev DetectorCall : Type := Except Unit (List YoloResult)

/-- The body of the `try` block in `process_frame` when the frame is
selected for inference (`should_process`), lines 100-131 of detector.py:
a raising model call is caught and the previous detection reused; a
nonempty result list is aggregated; an empty result list resets
`current_detection` but leaves the local `detection_info` unassigned, so
the final `return` raises `NameError` — modelled by `none`. -/
def run_yolo_inference {F : Type} (draw : F → DetectionInfo → F)
    (s : DetectorState) (frame : F) (dres : DetectorCall) (now : String) :
    Option (F × DetectionInfo) × DetectorState :=
  match dres with
  | .error _ => (some (frame, s.current_detection), s)
  | .ok [] => (none, { s with current_detection := get_no_detection_info now })
  | .ok (r :: _) =>
    let p := extract_yolo_detections r now s.rng
    (some (draw frame p.1, p.1),
     { s with current_detection := p.1, rng := p.2 })

/-- `PowerLineDetector.process_frame`: returns the `(annotated_frame,
detection_info)` pair (or `none` for the `NameError` path) together with
the updated detector state.  `draw` stands for `draw_yolo_boxes` (pixel
content is outside the model), `now` for `datetime.now()`. -/
def process_frame {F : Type} (draw : F → DetectionInfo → F)
    (s : DetectorState) (frame : F) (dres : DetectorCall) (now : String) :
    Option (F × DetectionInfo) × DetectorState :=
  if s.processing_enabled = false then
    (some (frame, s.current_detection), s)
  else
    let s1 := { s with frame_counter := s.frame_counter + 1 }
    let should_process := s1.frame_counter % s1.skip_factor = 0
    if should_process then
      run_yolo_inference draw s1 frame dres now
    else
      (some (frame, s.current_detection), s1)

/-- `PowerLineDetector.set_processing_enabled`: disabling resets
`current_detection` to the sentinel. -/
def set_processing_enabled (s : DetectorState) (enabled : Bool) (now : String) :
    DetectorState :=
  if enabled then { s with processing_enabled := true }
  else { s with processing_enabled := false
                current_detection := get_no_detection_info now }

/-- `PowerLineDetector.set_detection_interval`: clamp to `[1, 10]` and
reset the frame counter. -/
def set_detection_interval (s : DetectorState) (interval : ℤ) : DetectorState :=
  { s with skip_factor := (max 1 (min 10 interval)).toNat
           frame_counter := 0 }

/-- Feed a list of `(frame, detector outcome, timestamp)` inputs through
`process_frame`, collecting each call's returned pair. -/
def runFrames {F : Type} (draw : F → DetectionInfo → F) :
    DetectorState → List (F × DetectorCall × String) →
    List (Option (F × DetectionInfo)) × DetectorState
  | s, [] => ([], s)
  | s, (f, d, now) :: rest =>
    let step := process_frame draw s f d now
    let tail := runFrames draw step.2 rest
    (step.1 :: tail.1, tail.2)

/-- The producer-side enqueue of `_capture_loop` (camera.py lines 111-116):
`if not frame_queue.full(): frame_queue.put(frame.copy())` — non-blocking,
and on a full queue the incoming frame is simply not inserted. -/
def tryPush {F : Type} (cap : ℕ) (q : List F) (f : F) : List F :=
  if q.length < cap then q ++ [f] else q

/-- `frame_queue.get_nowait()` (camera.py `get_frame`): `None` on empty. -/
def tryPop {F : Type} : List F → Option F × List F
  | [] => (none, [])
  | f :: fs => (some f, fs)

/-- A producer/consumer operation on the frame queue. -/
inductive QueueOp (F : Type) where
  | push (f : F)
  | pop
deriving DecidableEq

/-- Apply a sequence of queue operations starting from a given queue. -/
def applyOps {F : Type} (cap : ℕ) : List F → List (QueueOp F) → List F
  | q, [] => q
  | q, .push f :: ops => applyOps cap (tryPush cap q f) ops
  | q, .pop :: ops => applyOps cap (tryPop q).2 ops

/-- State of `CameraManager` touched by one `_capture_loop` iteration:
source kind, `CAP_PROP_POS_FRAMES`, `CAP_PROP_FRAME_COUNT`, the frame
queue and the `running` flag. -/
structure CaptureState (F : Type) where
  is_video_file : Bool
  pos : ℕ
  frame_count : ℕ
  frame_queue : List F
  running : Bool
deriving DecidableEq

/-- Outcome of `cap.read()`. -/
inductive ReadOutcome (F : Type) where
  | success (frame : F)
  | failure
deriving DecidableEq

/-- What one loop iteration did (all branches end in `continue`:
no exception escapes and the thread does not exit). -/
inductive IterEvent where
  | captured
  | resetToStart
  | sleepRetry
deriving DecidableEq, Repr

/-- One iteration of `CameraManager._capture_loop` (camera.py lines
88-129): on a failed read, a file source at end of stream rewinds
`CAP_PROP_POS_FRAMES` to 0 and continues, any other failure sleeps ~10 ms
and retries; on success the frame is enqueued copy-on-enqueue under the
drop-newest policy (FPS bookkeeping and pacing sleeps are timing-only and
carry no state relevant here). -/
def capture_iteration {F : Type} (s : CaptureState F) (r : ReadOutcome F) :
    CaptureState F × IterEvent :=
  match r with
  | .failure =>
    if s.is_video_file = true ∧ s.frame_count ≤ s.pos then
      ({ s with pos := 0 }, .resetToStart)
    else
      (s, .sleepRetry)
  | .success f =>
    let s1 := if s.is_video_file = true then { s with pos := s.pos + 1 } else s
    ({ s1 with frame_queue := tryPush Config.FRAME_QUEUE_SIZE s1.frame_queue f },
     .captured)

/-- `Config.validate_settings` (config.py lines 108-129): the existence
check on `MODEL_PATH` is an environment input (`model_exists`); the range
checks are on the configured values. -/
def validate_settings (model_exists : Bool) (confidence_threshold : ℚ)
    (detection_interval : ℤ) (target_fps : ℤ) : Except String Unit :=
  if model_exists = false then
    .error ("Model file not found: " ++ Config.MODEL_PATH)
  else if ¬ (0 ≤ confidence_threshold ∧ confidence_threshold ≤ 1) then
    .error "Confidence threshold must be between 0 and 1"
  else if detection_interval < 1 then
    .error "Detection interval must be at least 1"
  else if target_fps < 1 ∨ 120 < target_fps then
    .error "Target FPS must be between 1 and 120"
  else
    .ok ()

/-- The module-level auto-validation of config.py (lines 191-196):
`try: Config.validate_settings() ... except Exception as e: print(...)` —
every validation error is caught and printed, so importing the module
always completes normally. -/
def config_module_import (model_exists : Bool) (confidence_threshold : ℚ)
    (detection_interval : ℤ) (target_fps : ℤ) : Except String Unit :=
  match validate_settings model_exists confidence_threshold detection_interval
      target_fps with
  | .ok () => .ok ()
  | .error _ => .ok ()

instance : DecidableEq (Except String Unit) := fun a b =>
  match a, b with
  | .ok x, .ok y => .isTrue (by cases x; cases y; rfl)
  | .error x, .error y =>
    if h : x = y then .isTrue (by rw [h]) else .isFalse (by simp [h])
  | .ok _, .error _ => .isFalse (by simp)
  | .error _, .ok _ => .isFalse (by simp)

theorem processBoxes_length (bs : List YoloBox) :
    ∀ rng : Rng, ((processBoxes bs rng).1).length = bs.length := by
  induction bs with
  | nil => intro rng; rfl
  | cons b bs ih => intro rng; simp [processBoxes, ih]

theorem processBoxes_map_conf (bs : List YoloBox) :
    ∀ rng : Rng, ((processBoxes bs rng).1).map (fun i => i.conf) =
      bs.map fun b => b.conf := by
  induction bs with
  | nil => intro rng; rfl
  | cons b bs ih => intro rng; simp [processBoxes, ih]

theorem processBoxes_map_lcc (bs : List YoloBox) :
    ∀ rng : Rng, ((processBoxes bs rng).1).map (fun i => (i.label, i.conf, i.cls)) =
      bs.map fun b => (Config.className b.cls, b.conf, b.cls) := by
  induction bs with
  | nil => intro rng; rfl
  | cons b bs ih => intro rng; simp [processBoxes, ih]

/-- C9: the simulated temperature is a deterministic function of
`(classId, confidence, random seed)`: with the generator state made
explicit, two invocations from equal seed states return equal values. -/
theorem simulate_temperature_deterministic (class_id : ℤ) (confidence : ℚ)
    (rng₁ rng₂ : Rng) (hc0 : 0 ≤ confidence) (hc1 : confidence ≤ 1)
    (hseed : rng₁ = rng₂) :
    simulate_temperature class_id confidence rng₁ =
      simulate_temperature class_id confidence rng₂ := by
  rw [hseed]

theorem simulate_temperature_deterministic_witness :
    (0 : ℚ) ≤ 1/2 ∧ (1/2 : ℚ) ≤ 1 ∧
    simulate_temperature 0 (1/2) [1/2, 1/2] =
      simulate_temperature 0 (1/2) [1/2, 1/2] :=
  ⟨by norm_num, by norm_num,
   simulate_temperature_deterministic 0 (1/2) [1/2, 1/2] [1/2, 1/2]
     (by norm_num) (by norm_num) rfl⟩

/-- C6: aggregating an empty detection list (a result with no boxes, or a
`None` boxes field) yields the "No Detection" sentinel, whose detail list
is empty; aggregating the sentinel's own (empty) detail again yields the
same sentinel, so the operation is idempotent. -/
theorem aggregate_empty_sentinel (now : String) (rng : Rng) :
    extract_yolo_detections (some []) now rng = (get_no_detection_info now, rng) ∧
    extract_yolo_detections none now rng = (get_no_detection_info now, rng) ∧
    (get_no_detection_info now).label = "No Detection" ∧
    (get_no_detection_info now).all_detections = [] ∧
    extract_yolo_detections
      (some ((((extract_yolo_detections (some []) now rng).1).all_detections).map
        fun d => ⟨d.2.1, d.2.2.1, (0, 0, 0, 0)⟩)) now rng =
      extract_yolo_detections (some []) now rng :=
  ⟨rfl, rfl, rfl, rfl, rfl⟩

/-- C8 (amended): `validate_settings` succeeds exactly when the model file
exists, the confidence threshold is in `[0,1]`, the detection interval is
at least 1 and the target FPS is in `[1,120]` — but the only pre-session
invocation, at config-module import, catches and prints every validation
error, so loading with an invalid configuration still completes. -/
theorem validate_settings_rejects_out_of_range (model_exists : Bool)
    (conf : ℚ) (interval fps : ℤ) :
    (validate_settings model_exists conf interval fps = .ok () ↔
      (model_exists = true ∧ 0 ≤ conf ∧ conf ≤ 1 ∧
        1 ≤ interval ∧ 1 ≤ fps ∧ fps ≤ 120)) ∧
    config_module_import model_exists conf interval fps = .ok () := by
  constructor
  · constructor
    · intro h
      unfold validate_settings at h
      split_ifs at h with h1 h2 h3 h4
      any_goals simp at h
      exact ⟨by simpa using h1, h2.1, h2.2, by omega, by omega, by omega⟩
    · rintro ⟨hm, hc0, hc1, hi, hf1, hf2⟩
      have hmf : ¬ model_exists = false := by simp [hm]
      have hcr : ¬ ¬ (0 ≤ conf ∧ conf ≤ 1) := not_not_intro ⟨hc0, hc1⟩
      have hir : ¬ interval < 1 := by omega
      have hfr : ¬ (fps < 1 ∨ 120 < fps) := by omega
      unfold validate_settings
      rw [if_neg hmf, if_neg hcr, if_neg hir, if_neg hfr]
  · unfold config_module_import
    cases h : validate_settings model_exists conf interval fps with
    | ok u => cases u; rfl
    | error e => rfl

/-- C8 counterexample: with a detection interval of 0 (and every other
value at its configured default), validation errors out, yet the
import-time wrapper swallows the error and the module loads normally —
nothing makes the rejection fatal before a session starts. -/
theorem config_import_swallows_invalid :
    validate_settings true Config.CONFIDENCE_THRESHOLD 0 Config.TARGET_FPS =
      Except.error "Detection interval must be at least 1" ∧
    config_module_import true Config.CONFIDENCE_THRESHOLD 0 Config.TARGET_FPS =
      Except.ok () := by
  have hv : validate_settings true Config.CONFIDENCE_THRESHOLD 0 Config.TARGET_FPS =
      Except.error "Detection interval must be at least 1" := by
    unfold validate_settings
    rw [if_neg (by simp),
        if_neg (by rw [not_not]
                   constructor <;> norm_num [Config.CONFIDENCE_THRESHOLD]),
        if_pos (by norm_num)]
  exact ⟨hv, by unfold config_module_import; rw [hv]⟩

theorem queue_length_invariant {F : Type} (cap : ℕ) :
    ∀ (ops : List (QueueOp F)) (q : List F), q.length ≤ cap →
      (applyOps cap q ops).length ≤ cap := by
  intro ops
  induction ops with
  | nil => intro q h; exact h
  | cons op ops ih =>
    intro q h
    cases op with
    | push f =>
      apply ih
      unfold tryPush
      split
      · simp; omega
      · exact h
    | pop =>
      apply ih
      cases q with
      | nil => exact h
      | cons x xs => simp [tryPop] at h ⊢; omega

/-- C2: the frame queue has fixed capacity `FRAME_QUEUE_SIZE = 2`; starting
empty, any sequence of producer pushes and consumer pops keeps its length
within `[0, 2]`; and a push onto a full queue leaves the queue unchanged —
the already-queued frames are kept and the incoming frame is not inserted
(the producer never calls a blocking put on a full queue). -/
theorem frame_queue_bounds :
    Config.FRAME_QUEUE_SIZE = 2 ∧
    (∀ (F : Type) (ops : List (QueueOp F)),
      (applyOps Config.FRAME_QUEUE_SIZE [] ops).length ≤ Config.FRAME_QUEUE_SIZE) ∧
    (∀ (F : Type) (q : List F) (f : F), Config.FRAME_QUEUE_SIZE ≤ q.length →
      tryPush Config.FRAME_QUEUE_SIZE q f = q) := by
  refine ⟨rfl, ?_, ?_⟩
  · intro F ops
    exact queue_length_invariant Config.FRAME_QUEUE_SIZE ops [] (by simp)
  · intro F q f h
    unfold tryPush
    rw [if_neg (by omega)]

theorem frame_queue_bounds_witness :
    ((applyOps Config.FRAME_QUEUE_SIZE ([] : List ℕ)
        [.push 1, .push 2, .push 3, .pop, .push 4]).length ≤
      Config.FRAME_QUEUE_SIZE) ∧
    Config.FRAME_QUEUE_SIZE ≤ ([10, 20] : List ℕ).length ∧
    tryPush Config.FRAME_QUEUE_SIZE [10, 20] 30 = [10, 20] :=
  ⟨frame_queue_bounds.2.1 ℕ [.push 1, .push 2, .push 3, .pop, .push 4],
   by decide,
   frame_queue_bounds.2.2 ℕ [10, 20] 30 (by decide)⟩

/-- C7: on a failed read, a file source at end of stream resets the
capture position to the first frame and continues (and a second failed
read right after the reset, the stream being nonempty, does not reset
again — exactly one reset per end of file, no thread exit); a camera
source's failed read yields a sleep-and-retry and never a position reset. -/
theorem capture_read_failure_recovery {F : Type} (s : CaptureState F) :
    (s.is_video_file = true → s.frame_count ≤ s.pos →
      capture_iteration s .failure = ({ s with pos := 0 }, .resetToStart) ∧
      (0 < s.frame_count →
        capture_iteration { s with pos := 0 } (ReadOutcome.failure) =
          ({ s with pos := 0 }, .sleepRetry))) ∧
    (s.is_video_file = false →
      capture_iteration s .failure = (s, .sleepRetry)) := by
  constructor
  · intro hv hend
    constructor
    · unfold capture_iteration
      rw [if_pos ⟨hv, hend⟩]
    · intro hfc
      unfold capture_iteration
      rw [if_neg (by simp; omega)]
  · intro hv
    unfold capture_iteration
    rw [if_neg (by simp [hv])]

theorem capture_read_failure_recovery_witness :
    (capture_iteration (⟨true, 5, 5, [], true⟩ : CaptureState ℕ) .failure =
      (⟨true, 0, 5, [], true⟩, .resetToStart) ∧
     capture_iteration (⟨true, 0, 5, [], true⟩ : CaptureState ℕ) .failure =
      (⟨true, 0, 5, [], true⟩, .sleepRetry)) ∧
    capture_iteration (⟨false, 3, 0, [], true⟩ : CaptureState ℕ) .failure =
      (⟨false, 3, 0, [], true⟩, .sleepRetry) :=
  ⟨⟨((capture_read_failure_recovery (⟨true, 5, 5, [], true⟩ : CaptureState ℕ)).1
       rfl (by decide)).1,
    ((capture_read_failure_recovery (⟨true, 5, 5, [], true⟩ : CaptureState ℕ)).1
       rfl (by decide)).2 (by decide)⟩,
   (capture_read_failure_recovery (⟨false, 3, 0, [], true⟩ : CaptureState ℕ)).2 rfl⟩

/-- C1: with processing enabled and frame-skip interval `n ≥ 1`, every
frame increments the frame counter; the YOLO inference path is taken
exactly when the incremented counter is divisible by `n`, and every other
frame is returned with the previously published detection state, the
state unchanged apart from the counter. -/
theorem scheduler_frame_skip {F : Type} (draw : F → DetectionInfo → F)
    (s : DetectorState) (frame : F) (dres : DetectorCall) (now : String)
    (henabled : s.processing_enabled = true) (hn : 1 ≤ s.skip_factor) :
    (process_frame draw s frame dres now).2.frame_counter = s.frame_counter + 1 ∧
    ((s.frame_counter + 1) % s.skip_factor ≠ 0 →
      process_frame draw s frame dres now =
        (some (frame, s.current_detection),
         { s with frame_counter := s.frame_counter + 1 })) ∧
    ((s.frame_counter + 1) % s.skip_factor = 0 →
      process_frame draw s frame dres now =
        run_yolo_inference draw { s with frame_counter := s.frame_counter + 1 }
          frame dres now) := by
  refine ⟨?_, ?_, ?_⟩
  · by_cases hmod : (s.frame_counter + 1) % s.skip_factor = 0
    · rw [show process_frame draw s frame dres now =
            run_yolo_inference draw { s with frame_counter := s.frame_counter + 1 }
              frame dres now
          from by simp [process_frame, henabled, hmod]]
      cases dres with
      | error e => rfl
      | ok results => cases results with
        | nil => rfl
        | cons r rs => rfl
    · simp [process_frame, henabled, hmod]
  · intro hmod
    simp [process_frame, henabled, hmod]
  · intro hmod
    simp [process_frame, henabled, hmod]

theorem scheduler_frame_skip_witness :
    (⟨true, 3, 0, get_no_detection_info "t0", []⟩ :
        DetectorState).processing_enabled = true ∧
    1 ≤ (⟨true, 3, 0, get_no_detection_info "t0", []⟩ : DetectorState).skip_factor ∧
    (0 + 1) % 3 ≠ 0 ∧
    process_frame (fun (f : ℕ) _ => f)
        ⟨true, 3, 0, get_no_detection_info "t0", []⟩ 7 (Except.error ()) "t1" =
      (some (7, get_no_detection_info "t0"),
       ⟨true, 3, 1, get_no_detection_info "t0", []⟩) :=
  ⟨rfl, by decide, by decide,
   (scheduler_frame_skip (fun (f : ℕ) _ => f)
      ⟨true, 3, 0, get_no_detection_info "t0", []⟩ 7 (Except.error ()) "t1"
      rfl (by decide)).2.1 (by decide)⟩

/-- C3: a detector call that raises on an inference-eligible frame is
caught: the call returns the frame paired with the previously published
detection state, the state is unchanged apart from the incremented
counter, and running any later frames from the post-failure state is the
same as if the failing call had only bumped the counter. -/
theorem inference_error_recovered {F : Type} (draw : F → DetectionInfo → F)
    (s : DetectorState) (frame : F) (now : String)
    (henabled : s.processing_enabled = true)
    (hmod : (s.frame_counter + 1) % s.skip_factor = 0) :
    process_frame draw s frame (Except.error ()) now =
      (some (frame, s.current_detection),
       { s with frame_counter := s.frame_counter + 1 }) ∧
    ∀ rest : List (F × DetectorCall × String),
      runFrames draw (process_frame draw s frame (Except.error ()) now).2 rest =
        runFrames draw { s with frame_counter := s.frame_counter + 1 } rest := by
  have h : process_frame draw s frame (Except.error ()) now =
      (some (frame, s.current_detection),
       { s with frame_counter := s.frame_counter + 1 }) := by
    simp [process_frame, henabled, hmod, run_yolo_inference]
  exact ⟨h, fun rest => by rw [h]⟩

theorem inference_error_recovered_witness :
    (⟨true, 1, 0, get_no_detection_info "t0", []⟩ :
        DetectorState).processing_enabled = true ∧
    (0 + 1) % 1 = 0 ∧
    process_frame (fun (f : ℕ) _ => f)
        ⟨true, 1, 0, get_no_detection_info "t0", []⟩ 5 (Except.error ()) "t2" =
      (some (5, get_no_detection_info "t0"),
       ⟨true, 1, 1, get_no_detection_info "t0", []⟩) :=
  ⟨rfl, by decide,
   (inference_error_recovered (fun (f : ℕ) _ => f)
      ⟨true, 1, 0, get_no_detection_info "t0", []⟩ 5 "t2" rfl (by decide)).1⟩

/-- C4: disabling processing immediately replaces the current detection
state with the "No Detection" sentinel (label "No Detection", empty
detection list, empty box list), and every frame fed through the
scheduler while it stays disabled is returned with that sentinel, the
detector state untouched. -/
theorem disable_resets_to_sentinel {F : Type} (draw : F → DetectionInfo → F)
    (s : DetectorState) (now : String) :
    (set_processing_enabled s false now).current_detection =
      get_no_detection_info now ∧
    (get_no_detection_info now).label = "No Detection" ∧
    (get_no_detection_info now).all_detections = [] ∧
    (get_no_detection_info now).boxes_xyxy = [] ∧
    ∀ inputs : List (F × DetectorCall × String),
      runFrames draw (set_processing_enabled s false now) inputs =
        (inputs.map fun i => some (i.1, get_no_detection_info now),
         set_processing_enabled s false now) := by
  refine ⟨rfl, rfl, rfl, rfl, ?_⟩
  intro inputs
  induction inputs with
  | nil => rfl
  | cons i rest ih =>
    obtain ⟨f, d, n⟩ := i
    simp only [runFrames, List.map]
    rw [show process_frame draw (set_processing_enabled s false now) f d n =
          (some (f, get_no_detection_info now), set_processing_enabled s false now)
        from by simp [process_frame, set_processing_enabled], ih]

/-- C10: when an inference-eligible frame gets a successful detector call
whose results list is empty, `process_frame` resets `current_detection`
to the sentinel but never assigns the local `detection_info`, so the
final `return` raises `NameError` instead of producing a pair — the
function is partial on the empty-results branch (modelled as `none`). -/
theorem empty_results_name_error {F : Type} (draw : F → DetectionInfo → F)
    (s : DetectorState) (frame : F) (now : String)
    (henabled : s.processing_enabled = true)
    (hmod : (s.frame_counter + 1) % s.skip_factor = 0) :
    process_frame draw s frame (Except.ok []) now =
      (none, { s with frame_counter := s.frame_counter + 1,
                      current_detection := get_no_detection_info now }) := by
  simp [process_frame, henabled, hmod, run_yolo_inference]

theorem empty_results_name_error_witness :
    (⟨true, 1, 0, get_no_detection_info "t0", []⟩ :
        DetectorState).processing_enabled = true ∧
    (0 + 1) % 1 = 0 ∧
    process_frame (fun (f : ℕ) _ => f)
        ⟨true, 1, 0, get_no_detection_info "t0", []⟩ 9 (Except.ok []) "t3" =
      (none, ⟨true, 1, 1, get_no_detection_info "t3", []⟩) :=
  ⟨rfl, by decide,
   empty_results_name_error (fun (f : ℕ) _ => f)
     ⟨true, 1, 0, get_no_detection_info "t0", []⟩ 9 "t3" rfl (by decide)⟩

/-- C5: aggregating a detector result with `N > 1` detections yields a
primary label "Multiple Detections (N)", a primary confidence formatted
from the maximum of the `N` confidences, a primary temperature formatted
from the maximum of the `N` temperatures, a detail list holding all `N`
detections in the detector's output order (labels, confidences and class
ids unchanged, no re-sorting), and a multi-line summary derived from that
detail list. -/
theorem multi_detection_aggregate (l : List YoloBox) (now : String) (rng : Rng)
    (hlen : 1 < l.length) :
    ((extract_yolo_detections (some l) now rng).1).label =
      "Multiple Detections (" ++ toString l.length ++ ")" ∧
    ((extract_yolo_detections (some l) now rng).1).all_detections.length =
      l.length ∧
    ((extract_yolo_detections (some l) now rng).1).all_detections.map
        (fun d => (d.1, d.2.1, d.2.2.1)) =
      l.map (fun b => (Config.className b.cls, b.conf, b.cls)) ∧
    ((extract_yolo_detections (some l) now rng).1).confidence =
      fmtPercent1 (pymax (l.map fun b => b.conf)) ∧
    ((extract_yolo_detections (some l) now rng).1).temperature =
      fmtFixed1 (pymax (((extract_yolo_detections (some l) now rng).1).all_detections.map
        fun d => d.2.2.2)) ++ " °C" ∧
    ((extract_yolo_detections (some l) now rng).1).multiple_info =
      String.intercalate "\n" (multipleLines
        (((extract_yolo_detections (some l) now rng).1).all_detections.map
          fun d => (d.1, d.2.1, d.2.2.2))) := by
  match l, hlen with
  | b :: bs, hlen =>
    have hL := processBoxes_length (b :: bs) rng
    have hbs : bs ≠ [] := by
      cases bs with
      | nil => simp at hlen
      | cons c cs => simp
    have hconf := processBoxes_map_conf (b :: bs) rng
    refine ⟨?_, ?_, ?_, ?_, ?_, ?_⟩
    · simp [extract_yolo_detections, hL, if_neg hbs]
    · simp [extract_yolo_detections, hL, if_neg hbs]
    · simp [extract_yolo_detections, hL, if_neg hbs, List.map_map,
        Function.comp_def, processBoxes_map_lcc]
    · simp [extract_yolo_detections, hL, if_neg hbs, hconf]
    · simp [extract_yolo_detections, hL, if_neg hbs, List.map_map, Function.comp_def]
    · simp [extract_yolo_detections, hL, if_neg hbs, List.map_map, Function.comp_def]

theorem multi_detection_aggregate_witness :
    1 < ([⟨9/10, 0, (0, 0, 0, 0)⟩, ⟨2/5, 1, (0, 0, 0, 0)⟩] : List YoloBox).length ∧
    ((extract_yolo_detections
        (some [⟨9/10, 0, (0, 0, 0, 0)⟩, ⟨2/5, 1, (0, 0, 0, 0)⟩]) "t"
        [1/2, 0, 1/2, 0]).1).label =
      "Multiple Detections (" ++
        toString ([⟨9/10, 0, (0, 0, 0, 0)⟩, ⟨2/5, 1, (0, 0, 0, 0)⟩] :
          List YoloBox).length ++ ")" ∧
    ((extract_yolo_detections
        (some [⟨9/10, 0, (0, 0, 0, 0)⟩, ⟨2/5, 1, (0, 0, 0, 0)⟩]) "t"
        [1/2, 0, 1/2, 0]).1).confidence =
      fmtPercent1 (pymax (([⟨9/10, 0, (0, 0, 0, 0)⟩, ⟨2/5, 1, (0, 0, 0, 0)⟩] :
        List YoloBox).map fun b => b.conf)) ∧
    ((extract_yolo_detections
        (some [⟨9/10, 0, (0, 0, 0, 0)⟩, ⟨2/5, 1, (0, 0, 0, 0)⟩]) "t"
        [1/2, 0, 1/2, 0]).1).all_detections.length =
      ([⟨9/10, 0, (0, 0, 0, 0)⟩, ⟨2/5, 1, (0, 0, 0, 0)⟩] : List YoloBox).length :=
  ⟨by decide,
   (multi_detection_aggregate [⟨9/10, 0, (0, 0, 0, 0)⟩, ⟨2/5, 1, (0, 0, 0, 0)⟩]
      "t" [1/2, 0, 1/2, 0] (by decide)).1,
   (multi_detection_aggregate [⟨9/10, 0, (0, 0, 0, 0)⟩, ⟨2/5, 1, (0, 0, 0, 0)⟩]
      "t" [1/2, 0, 1/2, 0] (by decide)).2.2.2.1,
   (multi_detection_aggregate [⟨9/10, 0, (0, 0, 0, 0)⟩, ⟨2/5, 1, (0, 0, 0, 0)⟩]
      "t" [1/2, 0, 1/2, 0] (by decide)).2.1⟩

end Drone
